import Mathlib

/-!
Verification of the thesis_agent retrieval pipeline (apps/api): a shallow
embedding of the document ingestion, embedding, search, query and document
management operations, together with proofs of the specified properties.

Python strings are modelled as Lean `String`, with the Python string
operations used by the code (`str.replace("\n", " ")`, `str.strip()`,
`str.lower()`) re-implemented character-by-character so that they are
executable under kernel reduction.  Floating point values (embedding
coordinates, similarity scores, thresholds) are modelled as rationals.
External services (the OpenAI embedding and chat endpoints, the pgvector
cosine-distance operator, the langchain text splitter and loaders) are
parameters of the definitions that call them: each is passed in as an
oracle function, exactly at the call sites the source has.
-/

/-- Python whitespace characters stripped by `str.strip()` (ASCII range). -/
def pyIsSpace (c : Char) : Bool :=
  (c == ' ') || (c == '\t') || (c == '\n') || (c == '\r') || (c == '\x0B') || (c == '\x0C')

/-- Python `s.replace("\n", " ")`: the pattern is a single character, so this
is a character map. -/
def pyReplaceNewline (s : String) : String :=
  String.mk (s.data.map fun c => if c = '\n' then ' ' else c)

/-- Python `s.strip()`: drop leading and trailing whitespace. -/
def pyStrip (s : String) : String :=
  String.mk (((s.data.dropWhile pyIsSpace).reverse.dropWhile pyIsSpace).reverse)

/-- Python `s.lower()` (ASCII model). -/
def pyLower (s : String) : String :=
  String.mk (s.data.map Char.toLower)

/-- `text.replace("\n", " ").strip()` — the normalisation applied by
`EmbeddingService.generate_embedding` and (per batch element) by
`EmbeddingService.generate_embedding_batch` (apps/api/core/embeddings.py). -/
def cleanText (s : String) : String :=
  pyStrip (pyReplaceNewline s)

/-- Python exceptions that the modelled code can raise. -/
inductive PyErr where
  | embeddingError (msg : String)
  | storeError (msg : String)
  | attributeError (msg : String)
  | valueError (msg : String)
deriving DecidableEq, Repr

/-- Embedding vectors (`List[float]`), modelled with rational coordinates. -/
abbrev Vec := List ℚ

/-- `EmbeddingService.dimension = 1536` (apps/api/core/embeddings.py). -/
def dimension : ℕ := 1536

/-- `EmbeddingService.generate_embedding` (apps/api/core/embeddings.py
lines 18-46).  `call` is the external `client.embeddings.create` for a single
input; the source cleans the text, returns a zero vector of `dimension`
without any external call when the cleaned text is empty (Python
`if not text:`), and otherwise returns whatever the external call yields.  An
external failure propagates (`raise` after logging). -/
def generate_embedding (call : String → Except PyErr Vec) (text : String) :
    Except PyErr Vec :=
  let t := cleanText text
  if t = "" then Except.ok (List.replicate dimension 0) else call t

/-- The consecutive slices `texts[i:i+batch_size]` for
`i = 0, batch_size, 2*batch_size, ...` taken by the loop of
`EmbeddingService.generate_embedding_batch` (apps/api/core/embeddings.py
line 65), in loop order. -/
def batchGroups (batch_size : ℕ) (hbs : 0 < batch_size) (texts : List String) :
    List (List String) :=
  if h : texts = [] then []
  else texts.take batch_size :: batchGroups batch_size hbs (texts.drop batch_size)
termination_by texts.length
decreasing_by
  have hlen : 0 < texts.length := List.length_pos.mpr h
  simp only [List.length_drop]
  omega

/-- Sequential processing of a list of batch groups: clean each group, issue
one external call per group in order, stop at the first failure, concatenate
the per-group results. -/
def runCalls (call : List String → Except PyErr (List Vec)) :
    List (List String) → Except PyErr (List Vec)
  | [] => Except.ok []
  | g :: gs =>
    match call (g.map cleanText) with
    | Except.error e => Except.error e
    | Except.ok res =>
      match runCalls call gs with
      | Except.error e => Except.error e
      | Except.ok rest => Except.ok (res ++ rest)

/-- `EmbeddingService.generate_embedding_batch` (apps/api/core/embeddings.py
lines 48-84).  The source iterates `for i in range(0, len(texts), batch_size)`,
slices `batch = texts[i:i+batch_size]`, cleans each text of the batch, issues
one `client.embeddings.create` call (`call`) for the cleaned batch and extends
the accumulator with the returned embeddings; any failure aborts the whole
call (`raise`), discarding the accumulator.  `batch_size` must be positive
(the Python `range` raises `ValueError` on step 0). -/
def generate_embedding_batch (call : List String → Except PyErr (List Vec))
    (batch_size : ℕ) (hbs : 0 < batch_size) (texts : List String) :
    Except PyErr (List Vec) :=
  if h : texts = [] then Except.ok []
  else
    match call ((texts.take batch_size).map cleanText) with
    | Except.error e => Except.error e
    | Except.ok batch_embeddings =>
      match generate_embedding_batch call batch_size hbs (texts.drop batch_size) with
      | Except.error e => Except.error e
      | Except.ok rest => Except.ok (batch_embeddings ++ rest)
termination_by texts.length
decreasing_by
  have hlen : 0 < texts.length := List.length_pos.mpr h
  simp only [List.length_drop]
  omega

/-- `settings.top_k_results` (apps/api/config.py line 35): default 5. -/
def top_k_results : ℤ := 5

/-- `settings.similarity_threshold` (apps/api/config.py line 36): default 0.7. -/
def similarity_threshold_setting : ℚ := 7/10

/-- `top_k = top_k or self.top_k` (rag_pipeline.py line 91): Python `or`
evaluates the right operand when the left is falsy, and both `None` and `0`
are falsy. -/
def resolveTopK (top_k : Option ℤ) : ℤ :=
  match top_k with
  | none => top_k_results
  | some v => if v = 0 then top_k_results else v

/-- `similarity_threshold = similarity_threshold or self.similarity_threshold`
(rag_pipeline.py line 92): Python `or` — both `None` and `0.0` are falsy. -/
def resolveSimilarityThreshold (similarity_threshold : Option ℚ) : ℚ :=
  match similarity_threshold with
  | none => similarity_threshold_setting
  | some v => if v = 0 then similarity_threshold_setting else v

/-- `ALLOWED_EXTENSIONS = {"txt", "pdf"}` (documents.py line 17). -/
def ALLOWED_EXTENSIONS : List String := ["txt", "pdf"]

/-- Python `pathlib.PurePath(filename).name`: the component after the last
slash. -/
def pathName (filename : String) : String :=
  String.mk ((filename.data.reverse.takeWhile fun c => c != '/').reverse)

/-- Index of the last dot in a list of characters, if any. -/
def lastDotIdx (cs : List Char) : Option ℕ :=
  ((List.range cs.length).filter fun i => cs.getD i ' ' == '.').getLast?

/-- Python `pathlib.PurePath(filename).suffix`: the final dot-suffix of the
name including the dot; empty when there is no dot, when the only dot leads
the name, or when the dot is the final character. -/
def pathSuffix (filename : String) : String :=
  let cs := (pathName filename).data
  match lastDotIdx cs with
  | none => ""
  | some i => if 0 < i ∧ i + 1 < cs.length then String.mk (cs.drop i) else ""

/-- The extension validation of `upload_document` (documents.py lines 36-42):
`file_extension = Path(file.filename).suffix.lower()`, and the request passes
this check (continuing to the size check and ingestion) iff
`file_extension in ALLOWED_EXTENSIONS`. -/
def uploadExtensionAccepts (filename : String) : Bool :=
  ALLOWED_EXTENSIONS.contains (pyLower (pathSuffix filename))

/-- Values of the free-form metadata dictionaries. -/
inductive MVal where
  | int (n : ℤ)
  | str (s : String)
deriving DecidableEq, Repr

/-- A Python dict with string keys, as a key-value list in insertion order. -/
abbrev MetaDict := List (String × MVal)

/-- One-key Python dict update, as in `{**m, k: v}`: replace the value in
place when the key is present, append otherwise. -/
def dictInsert (m : MetaDict) (k : String) (v : MVal) : MetaDict :=
  if m.any fun p => p.1 == k then m.map fun p => if p.1 == k then (k, v) else p
  else m ++ [(k, v)]

/-- Python dict lookup. -/
def dictGet (m : MetaDict) (k : String) : Option MVal :=
  (m.find? fun p => p.1 == k).map fun p => p.2

/-- A langchain `Document` (one loaded page/section) as handed to
`DocumentProcessor.chunk_documents`. -/
structure LCDoc where
  page_content : String
  metadata : MetaDict
deriving DecidableEq, Repr

/-- An element of the list `DocumentProcessor.chunk_documents` produces:
`{"text": ..., "metadata": {...}}`. -/
structure ChunkDict where
  text : String
  metadata : MetaDict
deriving DecidableEq, Repr

/-- `DocumentProcessor.chunk_documents` (document_processor.py lines 53-83):
apply the external text splitter (`split`, langchain
`RecursiveCharacterTextSplitter.split_documents`), then format each chunk,
merging a zero-based `chunk_index` and `chunk_size = len(chunk.page_content)`
over the metadata inherited from loading. -/
def chunk_documents (split : List LCDoc → List LCDoc) (documents : List LCDoc) :
    List ChunkDict :=
  (split documents).enum.map fun p =>
    { text := p.2.page_content
      metadata :=
        dictInsert (dictInsert p.2.metadata "chunk_index" (MVal.int p.1))
          "chunk_size" (MVal.int p.2.page_content.length) }

/-- `DocumentProcessor.process_file` (document_processor.py lines 85-103):
load the document (external loaders: `load` yields the pages, or raises),
join the page contents with a blank line, chunk them. -/
def process_file (load : Except PyErr (List LCDoc))
    (split : List LCDoc → List LCDoc) : Except PyErr (String × List ChunkDict) :=
  match load with
  | Except.error e => Except.error e
  | Except.ok documents =>
      Except.ok (String.intercalate "\n\n" (documents.map LCDoc.page_content),
        chunk_documents split documents)

/-- A row of the `documents` table (db_models.py).  The `metadata=` keyword
that `RAGPipeline.ingest_document` passes to the ORM constructor does not
name a mapped column: the column is `extra_metadata`, while `metadata` is the
declarative `Base`'s table-registry attribute, which the default constructor
happily shadows with an ordinary, unmapped instance attribute.  That unmapped
attribute is recorded here as `metadata_attr` (holding the dictionary the
source passes through `json.dumps`), and the mapped column `extra_metadata`
keeps its default NULL. -/
structure DocRow where
  id : ℤ
  filename : String
  file_path : String
  file_type : String
  content : String
  extra_metadata : Option MetaDict
  metadata_attr : Option MetaDict
deriving DecidableEq, Repr

/-- A row of the `document_chunks` table (db_models.py); `extra_metadata` and
`metadata_attr` exactly as in `DocRow`. -/
structure ChunkRow where
  id : ℤ
  document_id : ℤ
  chunk_text : String
  chunk_index : ℤ
  embedding : Vec
  extra_metadata : Option MetaDict
  metadata_attr : Option MetaDict
deriving DecidableEq, Repr

/-- The committed contents of the two tables. -/
structure Store where
  documents : List DocRow
  document_chunks : List ChunkRow
deriving DecidableEq, Repr

/-- A SQLAlchemy session: the committed store plus the rows added in the open
transaction (`db.add` + `db.flush` make rows visible to the transaction only;
`db.commit` publishes them, `db.rollback` discards them).  The id counters
model the Postgres sequences that assign primary keys at flush time. -/
structure DbState where
  committed : Store
  tx_documents : List DocRow
  tx_chunks : List ChunkRow
  next_doc_id : ℤ
  next_chunk_id : ℤ
deriving DecidableEq, Repr

/-- `db.rollback()`: discard the transaction-pending rows. -/
def DbState.rollback (db : DbState) : DbState :=
  { db with tx_documents := [], tx_chunks := [] }

/-- A successful `db.commit()`: publish the pending rows. -/
def DbState.commitTx (db : DbState) : DbState :=
  { committed :=
      { documents := db.committed.documents ++ db.tx_documents
        document_chunks := db.committed.document_chunks ++ db.tx_chunks }
    tx_documents := []
    tx_chunks := []
    next_doc_id := db.next_doc_id
    next_chunk_id := db.next_chunk_id }

/-- The chunk records built by `RAGPipeline.ingest_document` lines 57-65: one
`DocumentChunk` per element of `enumerate(zip(chunks, embeddings))`, with
serial ids assigned by the database from `first_id`, and the chunk metadata
dictionary landing in the unmapped `metadata` attribute (see `ChunkRow`). -/
def mkChunkRows (document_id : ℤ) (first_id : ℤ) (chunks : List ChunkDict)
    (embeddings : List Vec) : List ChunkRow :=
  (chunks.zip embeddings).enum.map fun p =>
    { id := first_id + p.1
      document_id := document_id
      chunk_text := p.2.1.text
      chunk_index := (p.1 : ℤ)
      embedding := p.2.2
      extra_metadata := none
      metadata_attr := some p.2.1.metadata }

/-- `RAGPipeline.ingest_document` (rag_pipeline.py lines 25-73).  `proc` is
the outcome of `self.document_processor.process_file(file_path)`, `embedBatch`
the outcome function of `self.embedding_service.generate_embedding_batch`,
and `commitOk` tells whether `db.commit()` succeeds.  The source wraps the
whole body in `try/except`, rolling the session back and re-raising on any
failure.  The `Document(...)` constructor receives
`metadata=json.dumps({"chunk_count": len(chunks)})`, which (see `DocRow`)
lands in the unmapped attribute, not in the `extra_metadata` column. -/
def ingest_document (proc : Except PyErr (String × List ChunkDict))
    (embedBatch : List String → Except PyErr (List Vec)) (commitOk : Bool)
    (filename file_path file_type : String) (db : DbState) :
    Except PyErr (ℤ × ℕ) × DbState :=
  match proc with
  | Except.error e => (Except.error e, db.rollback)
  | Except.ok (full_content, chunks) =>
    let document : DocRow :=
      { id := db.next_doc_id
        filename := filename
        file_path := file_path
        file_type := file_type
        content := full_content
        extra_metadata := none
        metadata_attr := some [("chunk_count", MVal.int chunks.length)] }
    let db1 : DbState :=
      { db with tx_documents := db.tx_documents ++ [document]
                next_doc_id := db.next_doc_id + 1 }
    match embedBatch (chunks.map ChunkDict.text) with
    | Except.error e => (Except.error e, db1.rollback)
    | Except.ok embeddings =>
      let rows := mkChunkRows document.id db1.next_chunk_id chunks embeddings
      let db2 : DbState :=
        { db1 with tx_chunks := db1.tx_chunks ++ rows
                   next_chunk_id := db1.next_chunk_id + rows.length }
      if commitOk then (Except.ok (document.id, chunks.length), db2.commitTx)
      else (Except.error (PyErr.storeError "commit"), db2.rollback)

/-- `RetrievedChunk` (apps/api/models/schemas.py). -/
structure RetrievedChunk where
  chunk_id : ℤ
  document_id : ℤ
  filename : String
  chunk_text : String
  similarity_score : ℚ
  chunk_index : ℤ
deriving DecidableEq, Repr

/-- The row semantics of the retrieval SQL's inner join
(`... dc JOIN documents d ON dc.document_id = d.id`, rag_pipeline.py lines
100-113) — the rows the join WOULD produce if the FROM-clause relation name
resolved to the chunk table.  It does not: see `SearchExecOutcome`, whose
name-resolution guard is what the retrieval model actually goes through, and
which makes this branch unreachable for the SQL text the source ships. -/
def joinRows (s : Store) : List (ChunkRow × DocRow) :=
  s.document_chunks.flatMap fun dc =>
    (s.documents.filter fun d => d.id == dc.document_id).map fun d => (dc, d)

/-- The similarity the SQL computes: `1 - (dc.embedding <=> :query_embedding)`,
`dist` being the external pgvector cosine-distance operator. -/
def simOf (dist : Vec → Vec → ℚ) (q : Vec) (dc : ChunkRow) : ℚ :=
  1 - dist dc.embedding q

/-- The rows passing the SQL `WHERE` clause:
`1 - (dc.embedding <=> :query_embedding) >= :threshold`. -/
def searchMatches (dist : Vec → Vec → ℚ) (s : Store) (q : Vec)
    (threshold : ℚ) : List (ChunkRow × DocRow) :=
  (joinRows s).filter fun r => decide (threshold ≤ simOf dist q r.1)

/-- The projection of one result row to a `RetrievedChunk`
(rag_pipeline.py lines 124-134). -/
def toRetrieved (dist : Vec → Vec → ℚ) (q : Vec) (r : ChunkRow × DocRow) :
    RetrievedChunk :=
  { chunk_id := r.1.id
    document_id := r.1.document_id
    filename := r.2.filename
    chunk_text := r.1.chunk_text
    similarity_score := simOf dist q r.1
    chunk_index := r.1.chunk_index }

/-- The result lists the retrieval SQL's filter/order/limit WOULD admit if
its relation names resolved (rag_pipeline.py lines 100-122): the matching
rows in some order that is non-decreasing in cosine distance — `ORDER BY
dc.embedding <=> :query_embedding` has no further sort key, so SQL leaves the
relative order of equal-distance rows unspecified — truncated by
`LIMIT :top_k` and projected to `RetrievedChunk`s.  This is only the
success branch of `SearchExecOutcome`, which for the shipped SQL text is
unreachable. -/
def SearchOutcome (dist : Vec → Vec → ℚ) (s : Store) (q : Vec) (top_k : ℕ)
    (threshold : ℚ) (out : List RetrievedChunk) : Prop :=
  ∃ l : List (ChunkRow × DocRow),
    List.Perm l (searchMatches dist s q threshold)
    ∧ List.Sorted (fun a b => dist a.1.embedding q ≤ dist b.1.embedding q) l
    ∧ out = (l.take top_k).map (toRetrieved dist q)

/-- The relations the relational schema defines: the `__tablename__` values
of db_models.py (created by `Base.metadata.create_all`); PostgreSQL folds
the SQL's unquoted identifiers to lowercase and resolves them against this
schema before executing a statement. -/
def schemaTables : List String := ["documents", "document_chunks", "query_logs"]

/-- The relation named by the retrieval SQL's FROM clause
(rag_pipeline.py line 108): `FROM document_chunk dc` — without the trailing
s that the schema's chunk table `document_chunks` has. -/
def searchSqlFromTable : String := "document_chunk"

/-- The relation named by the retrieval SQL's JOIN clause
(rag_pipeline.py line 109): `JOIN documents d`. -/
def searchSqlJoinTable : String := "documents"

/-- The failure `db.execute` raises when a named relation does not exist. -/
def undefinedTableError : PyErr :=
  PyErr.storeError "UndefinedTable: relation document_chunk does not exist"

/-- `db.execute` of the retrieval SQL (rag_pipeline.py lines 115-122) against
the schema of db_models.py: PostgreSQL first resolves the FROM/JOIN relation
names; only if both are defined does the statement produce one of the
filter/order/limit result lists, and an undefined relation makes the whole
statement raise instead.  The FROM clause names `document_chunk`, which the
schema does not define, so the error branch is the one every execution
takes. -/
def SearchExecOutcome (dist : Vec → Vec → ℚ) (s : Store) (q : Vec)
    (top_k : ℕ) (threshold : ℚ) (res : Except PyErr (List RetrievedChunk)) :
    Prop :=
  if searchSqlFromTable ∈ schemaTables ∧ searchSqlJoinTable ∈ schemaTables then
    ∃ out, SearchOutcome dist s q top_k threshold out ∧ res = Except.ok out
  else res = Except.error undefinedTableError

/-- The constants of `starlette.status` this router can refer to; attribute
access on an absent name raises `AttributeError`, and `HTTP_400_NOT_FOUND`
(documents.py line 184) is no constant of that module. -/
def statusConstants : List (String × ℕ) :=
  [("HTTP_200_OK", 200), ("HTTP_201_CREATED", 201), ("HTTP_204_NO_CONTENT", 204),
   ("HTTP_400_BAD_REQUEST", 400), ("HTTP_404_NOT_FOUND", 404),
   ("HTTP_500_INTERNAL_SERVER_ERROR", 500)]

/-- Python attribute lookup on the `status` module. -/
def statusAttr (name : String) : Option ℕ :=
  (statusConstants.find? fun p => p.1 == name).map fun p => p.2

/-- The outcome of the delete endpoint towards the client. -/
inductive DeleteResult where
  | noContent
  | httpError (code : ℕ) (detail : String)
deriving DecidableEq, Repr

/-- `delete_document` (documents.py lines 170-208).  The filesystem is the
list of existing paths.  Control flow of the source: look the document up;
when absent, build `HTTPException(status_code=status.HTTP_400_NOT_FOUND, ...)`
— that attribute does not exist, so an `AttributeError` is raised instead and
caught by the generic `except Exception` handler, which rolls back and turns
it into an HTTP 500; when present, delete the chunk rows (inside the open
transaction), unlink the backing file if it exists (an immediate,
non-transactional filesystem effect), delete the document row, then
`db.commit()` — commit failure hits the generic handler, which rolls the row
deletions back (HTTP 500), while the unlink stays. -/
def delete_document (document_id : ℤ) (commitOk : Bool) (store : Store)
    (fs : List String) : DeleteResult × Store × List String :=
  match store.documents.find? fun d => d.id == document_id with
  | none =>
    match statusAttr "HTTP_400_NOT_FOUND" with
    | some code => (DeleteResult.httpError code "Document not found", store, fs)
    | none =>
      (DeleteResult.httpError 500 "Error deleting document: AttributeError",
        store, fs)
  | some document =>
    let fs1 := fs.filter fun p => p != document.file_path
    if commitOk then
      (DeleteResult.noContent,
        { documents := store.documents.filter fun d => d.id != document_id
          document_chunks :=
            store.document_chunks.filter fun c => c.document_id != document_id },
        fs1)
    else
      (DeleteResult.httpError 500 "Error deleting document: commit failed",
        store, fs1)

/-- `QueryResponse` (schemas.py); `response_time` is elapsed wall-clock. -/
structure QueryResponse where
  query : String
  answer : String
  retrieved_chunks : List RetrievedChunk
  response_time : ℚ
deriving DecidableEq, Repr

/-- The canned no-match answer of `RAGPipeline.generate_answer`
(rag_pipeline.py lines 157-159). -/
def cannedAnswer : String :=
  "I couldn't find any relevant information in the knowledge base to answer your question. Please try rephrasing or ask about a different topic."

/-- The system prompt of `RAGPipeline.generate_answer` (lines 168-173). -/
def systemPromptText : String :=
  "You are a helpful assistant that answers questions based on the provided context. Use only the information from the context to answer the question. If the context doesn't contain enough information, say so. Always cite which source document your answer comes from."

/-- `RAGPipeline.generate_answer` (rag_pipeline.py lines 142-196): with no
retrieved chunks return the canned answer — no model call; otherwise build
the context block and the two prompts and return whatever the external chat
completion (`llm`) yields; its failure propagates. -/
def generate_answer (llm : String → String → Except PyErr String)
    (query : String) (retrieved_chunks : List RetrievedChunk) :
    Except PyErr String :=
  if retrieved_chunks = [] then Except.ok cannedAnswer
  else
    let context := String.intercalate "\n\n" (retrieved_chunks.map fun c =>
      "Source: " ++ c.filename ++ " (Chunk " ++ toString c.chunk_index ++ ")\n"
        ++ c.chunk_text)
    llm systemPromptText
      ("Context: " ++ context ++ "\n            Question: " ++ query
        ++ "\n            Please provide a clear and detailed answer based on the context.\n            ")

/-- `RAGPipeline.retrieval_relevant_chunks` (rag_pipeline.py lines 75-140) as
a relation over the SQL execution outcome: resolve the defaults via Python
`or`, embed the query via `generate_embedding`, then execute the retrieval
SQL (`SearchExecOutcome`); an embedding failure propagates, and so does the
SQL failure — the function's `except` arm logs and re-raises.  Since the SQL
names the nonexistent relation `document_chunk`, the execution raises on
every call that reaches it. -/
def RetrievalOutcome (embedCall : String → Except PyErr Vec)
    (dist : Vec → Vec → ℚ) (store : Store) (query : String)
    (top_k : Option ℤ) (similarity_threshold : Option ℚ)
    (res : Except PyErr (List RetrievedChunk)) : Prop :=
  match generate_embedding embedCall query with
  | Except.error e => res = Except.error e
  | Except.ok query_embedding =>
      SearchExecOutcome dist store query_embedding (resolveTopK top_k).toNat
        (resolveSimilarityThreshold similarity_threshold) res

/-- Modelled from the spec: `RAGPipeline.query` is called by the query router
(`rag_pipeline.query(...)`, apps/api/routers/query.py lines 27-32) but the
method itself is absent from the source tree.  Modelled from spec section 4.4
(query contract steps 1-5): retrieve the ranked chunks (steps 1-3 are
`retrieval_relevant_chunks`), produce the answer over them (`generate_answer`,
which returns the canned no-match answer on an empty chunk list and otherwise
consults the model over the assembled context), and return the answer with
the ranked chunk list and the elapsed wall-clock time; retrieval and
generation failures propagate to the caller. -/
def QueryOutcome (embedCall : String → Except PyErr Vec)
    (dist : Vec → Vec → ℚ) (llm : String → String → Except PyErr String)
    (store : Store) (query : String) (top_k : Option ℤ)
    (similarity_threshold : Option ℚ) (resp : Except PyErr QueryResponse) :
    Prop :=
  ∃ r, RetrievalOutcome embedCall dist store query top_k similarity_threshold r
    ∧ match r with
      | Except.error e => resp = Except.error e
      | Except.ok chunks =>
        match generate_answer llm query chunks with
        | Except.error e => resp = Except.error e
        | Except.ok answer =>
          ∃ response_time, resp = Except.ok
            { query := query, answer := answer, retrieved_chunks := chunks,
              response_time := response_time }

/-- Example document row used by concrete witnesses/counterexamples. -/
def exDoc : DocRow :=
  { id := 1, filename := "t.txt", file_path := "data/raw/t.txt",
    file_type := "txt", content := "c1\n\nc2", extra_metadata := none,
    metadata_attr := none }

/-- Example chunk row (id 1); same embedding as `exChunk2`. -/
def exChunk1 : ChunkRow :=
  { id := 1, document_id := 1, chunk_text := "c1", chunk_index := 0,
    embedding := [1, 0], extra_metadata := none, metadata_attr := none }

/-- Example chunk row (id 2); same embedding as `exChunk1`. -/
def exChunk2 : ChunkRow :=
  { id := 2, document_id := 1, chunk_text := "c2", chunk_index := 1,
    embedding := [1, 0], extra_metadata := none, metadata_attr := none }

/-- Example store holding the two equal-embedding chunks. -/
def exStore : Store := { documents := [exDoc], document_chunks := [exChunk1, exChunk2] }

/-- A concrete distance oracle: everything at distance 0 (similarity 1). -/
def dist0 : Vec → Vec → ℚ := fun v w => 0

/-- The empty store. -/
def emptyStore : Store := { documents := [], document_chunks := [] }

/-- A fresh session over the empty store (sequences starting at 1). -/
def dbFresh : DbState :=
  { committed := emptyStore, tx_documents := [], tx_chunks := [],
    next_doc_id := 1, next_chunk_id := 1 }

/-- The example page loaded from the spec's two-paragraph document. -/
def docW : LCDoc :=
  { page_content := "Para A.\n\nPara B.",
    metadata := [("source", MVal.str "data/raw/t.txt")] }

/-- Loader oracle yielding the example page. -/
def loadW : Except PyErr (List LCDoc) := Except.ok [docW]

/-- Splitter oracle cutting each page at the paragraph break (what the
recursive splitter does to the example page at `chunk_size = 100`,
`chunk_overlap = 0`). -/
def splitW : List LCDoc → List LCDoc := fun docs =>
  docs.flatMap fun d =>
    [{ page_content := "Para A.", metadata := d.metadata },
     { page_content := "Para B.", metadata := d.metadata }]

/-- Embedding oracle that embeds every text as `[1]`. -/
def embedOkW : List String → Except PyErr (List Vec) := fun ts =>
  Except.ok (ts.map fun t => [1])

/-- Embedding oracle that always fails. -/
def embedFailW : List String → Except PyErr (List Vec) := fun ts =>
  Except.error (PyErr.embeddingError "model down")

/-- The example chunk dictionaries of the two-paragraph document (metadata
left empty; only the texts matter for the rollback scenario). -/
def chunksW : List ChunkDict :=
  [{ text := "Para A.", metadata := [] }, { text := "Para B.", metadata := [] }]

/-- A processing outcome for the two-paragraph document. -/
def procW : Except PyErr (String × List ChunkDict) :=
  Except.ok ("Para A.\n\nPara B.", chunksW)

/-- The concrete successful ingestion of the example document. -/
def ingestW : Except PyErr (ℤ × ℕ) × DbState :=
  ingest_document (process_file loadW splitW) embedOkW true
    "t.txt" "data/raw/t.txt" "txt" dbFresh

/-- Embedding oracle for a single text: always `[1]`. -/
def embedOneW : String → Except PyErr Vec := fun s => Except.ok [1]

/-- Chat oracle that always fails (never reached in the scenarios below). -/
def llmFailW : String → String → Except PyErr String := fun a b =>
  Except.error (PyErr.embeddingError "unused")

theorem batchGroups_join (batch_size : ℕ) (hbs : 0 < batch_size)
    (texts : List String) :
    (batchGroups batch_size hbs texts).flatMap id = texts := by
  rw [batchGroups]
  by_cases h : texts = []
  · simp [h]
  · have ih := batchGroups_join batch_size hbs (texts.drop batch_size)
    simp [h, ih, List.take_append_drop]
termination_by texts.length
decreasing_by
  have hlen : 0 < texts.length := List.length_pos.mpr h
  simp only [List.length_drop]
  omega

theorem batchGroups_mem (batch_size : ℕ) (hbs : 0 < batch_size)
    (texts : List String) :
    ∀ g ∈ batchGroups batch_size hbs texts, g.length ≤ batch_size ∧ g ≠ [] := by
  by_cases h : texts = []
  · subst h; rw [batchGroups]; simp
  · rw [batchGroups]
    simp only [dif_neg h]
    intro g hg
    rcases List.mem_cons.mp hg with rfl | hg2
    · refine ⟨?_, ?_⟩
      · simpa using List.length_take_le batch_size texts
      · simp only [ne_eq, List.take_eq_nil_iff, h, or_false]
        omega
    · exact batchGroups_mem batch_size hbs (texts.drop batch_size) g hg2
termination_by texts.length
decreasing_by
  have hlen : 0 < texts.length := List.length_pos.mpr h
  simp only [List.length_drop]
  omega

theorem generate_embedding_batch_eq_runCalls
    (call : List String → Except PyErr (List Vec))
    (batch_size : ℕ) (hbs : 0 < batch_size) (texts : List String) :
    generate_embedding_batch call batch_size hbs texts
      = runCalls call (batchGroups batch_size hbs texts) := by
  by_cases h : texts = []
  · subst h; rw [generate_embedding_batch, batchGroups]; simp [runCalls]
  · rw [generate_embedding_batch, batchGroups]
    simp only [dif_neg h]
    have ih := generate_embedding_batch_eq_runCalls call batch_size hbs
      (texts.drop batch_size)
    rw [runCalls, ih]
termination_by texts.length
decreasing_by
  have hlen : 0 < texts.length := List.length_pos.mpr h
  simp only [List.length_drop]
  omega

theorem generate_embedding_batch_map (E : String → Vec)
    (call : List String → Except PyErr (List Vec))
    (hcall : ∀ l, call l = Except.ok (l.map E))
    (batch_size : ℕ) (hbs : 0 < batch_size) (texts : List String) :
    generate_embedding_batch call batch_size hbs texts
      = Except.ok (texts.map fun t => E (cleanText t)) := by
  by_cases h : texts = []
  · subst h; rw [generate_embedding_batch]; simp
  · rw [generate_embedding_batch]
    have ih := generate_embedding_batch_map E call hcall batch_size hbs
      (texts.drop batch_size)
    simp only [dif_neg h, hcall, ih, List.map_map, Function.comp_def]
    rw [← List.map_append, List.take_append_drop]
termination_by texts.length
decreasing_by
  have hlen : 0 < texts.length := List.length_pos.mpr h
  simp only [List.length_drop]
  omega

theorem runCalls_failure (call : List String → Except PyErr (List Vec))
    (gs : List (List String)) (g : List String) (e : PyErr)
    (hg : g ∈ gs) (he : call (g.map cleanText) = Except.error e) :
    ∃ e2, runCalls call gs = Except.error e2 := by
  induction gs with
  | nil => cases hg
  | cons a as ih =>
    rcases List.mem_cons.mp hg with rfl | hmem
    · exact ⟨e, by rw [runCalls, he]⟩
    · cases hc : call (a.map cleanText) with
      | error e0 => exact ⟨e0, by rw [runCalls, hc]⟩
      | ok res =>
        obtain ⟨e2, h2⟩ := ih hmem
        exact ⟨e2, by rw [runCalls, hc, h2]⟩

/-- C5: `generate_embedding_batch` partitions its input into consecutive
groups of size at most `batch_size` (in input order, jointly covering the
input), processes exactly those groups by one external call per group in
order, returns (when every call succeeds pointwise) the embeddings of all
inputs in input order — same length, same order — and returns an error with
no partial results whenever the call for any group fails. -/
theorem embedding_batch_partition_order_and_failure
    (batch_size : ℕ) (hbs : 0 < batch_size) (texts : List String) :
    (batchGroups batch_size hbs texts).flatMap id = texts
    ∧ (∀ g ∈ batchGroups batch_size hbs texts, g.length ≤ batch_size ∧ g ≠ [])
    ∧ (∀ call, generate_embedding_batch call batch_size hbs texts
        = runCalls call (batchGroups batch_size hbs texts))
    ∧ (∀ (E : String → Vec) (call : List String → Except PyErr (List Vec)),
        (∀ l, call l = Except.ok (l.map E)) →
        generate_embedding_batch call batch_size hbs texts
          = Except.ok (texts.map fun t => E (cleanText t)))
    ∧ (∀ call g e, g ∈ batchGroups batch_size hbs texts →
        call (g.map cleanText) = Except.error e →
        ∃ e2, generate_embedding_batch call batch_size hbs texts = Except.error e2) := by
  refine ⟨batchGroups_join batch_size hbs texts, batchGroups_mem batch_size hbs texts,
    fun call => generate_embedding_batch_eq_runCalls call batch_size hbs texts,
    fun E call hcall => generate_embedding_batch_map E call hcall batch_size hbs texts,
    fun call g e hg he => ?_⟩
  rw [generate_embedding_batch_eq_runCalls]
  exact runCalls_failure call _ g e hg he

/-- Witness for C5 at `batch_size = 2` and four concrete texts, with an
external call whose embedding marks exactly the cleaned form of the second
text (so the result also shows in-order correspondence and cleaning). -/
theorem embedding_batch_partition_order_and_failure_witness :
    generate_embedding_batch
        (fun l => Except.ok (l.map fun s => [if s = "b c" then (1 : ℚ) else 0]))
        2 (by decide) ["a", "b\nc", "", "dd"]
      = Except.ok [[0], [1], [0], [0]] :=
  ((embedding_batch_partition_order_and_failure 2 (by decide)
      ["a", "b\nc", "", "dd"]).2.2.2.1
    (fun s => [if s = "b c" then (1 : ℚ) else 0]) _ (fun l => rfl)).trans
    (congrArg Except.ok (by decide))

/-- C8: `generate_embedding` on input whose cleaned form (newlines collapsed
to spaces, then stripped) is empty returns the zero vector of the configured
dimension 1536, for every external-call oracle — i.e. without consulting the
external model. -/
theorem generate_embedding_empty_input (call : String → Except PyErr Vec)
    (text : String) (h : cleanText text = "") :
    generate_embedding call text = Except.ok (List.replicate 1536 0) := by
  simp only [generate_embedding, h]
  rfl

/-- Witness for C8 at the whitespace-only input `"\n \n"`, with an oracle
that would fail if it were ever called. -/
theorem generate_embedding_empty_input_witness :
    generate_embedding (fun t => Except.error (PyErr.embeddingError t)) "\n \n"
      = Except.ok (List.replicate 1536 0) :=
  generate_embedding_empty_input _ _ (by decide)

/-- Counterexample to C7: `0.0` is a legal `similarity_threshold` (the request
schema allows the closed interval from 0.0 to 1.0), yet supplying it does not
reach the search — Python `or` treats `0.0` as falsy, so the configured
default 0.7 is used instead of the supplied value. -/
theorem resolve_threshold_zero_counterexample :
    resolveSimilarityThreshold (some 0) = similarity_threshold_setting
    ∧ similarity_threshold_setting ≠ 0 := by
  constructor
  · simp [resolveSimilarityThreshold]
  · simp only [similarity_threshold_setting]
    norm_num

/-- C7 (amended): a supplied `top_k >= 1` and a supplied nonzero
`similarity_threshold` are passed to the search exactly; the configured
defaults are used when a parameter is not supplied — but also when the
supplied value equals zero, since the resolution uses Python or-truthiness. -/
theorem resolve_params_amended :
    (∀ k : ℤ, 1 ≤ k → resolveTopK (some k) = k)
    ∧ (∀ t : ℚ, t ≠ 0 → resolveSimilarityThreshold (some t) = t)
    ∧ resolveTopK none = top_k_results
    ∧ resolveSimilarityThreshold none = similarity_threshold_setting
    ∧ resolveTopK (some 0) = top_k_results
    ∧ resolveSimilarityThreshold (some 0) = similarity_threshold_setting := by
  refine ⟨fun k hk => ?_, fun t ht => ?_, rfl, rfl, by simp [resolveTopK],
    by simp [resolveSimilarityThreshold]⟩
  · have : k ≠ 0 := by omega
    simp [resolveTopK, this]
  · simp [resolveSimilarityThreshold, ht]

/-- Witness for C7 (amended) at `top_k = 3` and `similarity_threshold = 1/2`. -/
theorem resolve_params_amended_witness :
    resolveTopK (some 3) = 3 ∧ resolveSimilarityThreshold (some (1/2)) = 1/2 :=
  ⟨resolve_params_amended.1 3 (by norm_num),
    resolve_params_amended.2.1 (1/2) (by norm_num)⟩

/-- C3 is violated by the code: `Path(filename).suffix.lower()` keeps the
leading dot (".txt", ".pdf"), while `ALLOWED_EXTENSIONS` holds the bare names
{"txt", "pdf"}, so the membership test fails for every `.txt`/`.pdf` upload
(and for every other filename): the endpoint rejects them all with the
client error instead of proceeding to the size check and ingestion. -/
theorem upload_extension_check_rejects_all :
    pathSuffix "doc.txt" = ".txt"
    ∧ uploadExtensionAccepts "doc.txt" = false
    ∧ uploadExtensionAccepts "report.PDF" = false
    ∧ uploadExtensionAccepts "doc.pdf" = false
    ∧ uploadExtensionAccepts "archive.tar.gz" = false
    ∧ uploadExtensionAccepts "noext" = false := by
  refine ⟨by decide, by decide, by decide, by decide, by decide, by decide⟩

/-- C1 is violated by the code: the retrieval SQL's FROM clause names the
relation `document_chunk`, which the schema does not define (the chunk table
is `document_chunks`), so executing the search raises an undefined-table
error instead of returning a ranked result list — on every store, query,
`top_k` and threshold; concretely, over the two-chunk example store the
error is the only possible execution outcome and no successful result list
exists. -/
theorem search_always_undefined_table :
    searchSqlFromTable ∉ schemaTables
    ∧ "document_chunks" ∈ schemaTables
    ∧ SearchExecOutcome dist0 exStore [1, 0] 5 0
        (Except.error undefinedTableError)
    ∧ (¬ ∃ out, SearchExecOutcome dist0 exStore [1, 0] 5 0 (Except.ok out))
    ∧ (∀ (dist : Vec → Vec → ℚ) (s : Store) (q : Vec) (top_k : ℕ)
        (threshold : ℚ) (res : Except PyErr (List RetrievedChunk)),
        SearchExecOutcome dist s q top_k threshold res →
        res = Except.error undefinedTableError) := by
  have hcond : ¬ (searchSqlFromTable ∈ schemaTables
      ∧ searchSqlJoinTable ∈ schemaTables) := by decide
  refine ⟨by decide, by decide, ?_, ?_, ?_⟩
  · unfold SearchExecOutcome
    rw [if_neg hcond]
  · rintro ⟨out, h⟩
    unfold SearchExecOutcome at h
    rw [if_neg hcond] at h
    exact Except.noConfusion h
  · intro dist s q top_k threshold res h
    unfold SearchExecOutcome at h
    rw [if_neg hcond] at h
    exact h

/-- Witness for the universally quantified part of C1's theorem, at the
empty store: the undefined-table error is forced there as well. -/
theorem search_always_undefined_table_witness :
    (Except.error undefinedTableError : Except PyErr (List RetrievedChunk))
      = Except.error undefinedTableError :=
  search_always_undefined_table.2.2.2.2 dist0 emptyStore [1] 5 0
    (Except.error undefinedTableError)
    (by unfold SearchExecOutcome
        rw [if_neg (by decide : ¬ (searchSqlFromTable ∈ schemaTables
          ∧ searchSqlJoinTable ∈ schemaTables))])

/-- C2: ingestion is atomic.  Started on a fresh session, `ingest_document`
either fails — and then the committed store is exactly what it was before and
no transaction-pending rows remain (full rollback, whether the failure is in
document processing, embedding, or commit) — or succeeds, and then the
document row and all its chunk rows are committed together, with the returned
pair holding the new document id and the chunk count. -/
theorem ingest_document_atomic (proc : Except PyErr (String × List ChunkDict))
    (embedBatch : List String → Except PyErr (List Vec)) (commitOk : Bool)
    (filename file_path file_type : String) (db : DbState)
    (hfresh : db.tx_documents = [] ∧ db.tx_chunks = []) :
    (∀ e db2, ingest_document proc embedBatch commitOk filename file_path
        file_type db = (Except.error e, db2) →
      db2.committed = db.committed ∧ db2.tx_documents = [] ∧ db2.tx_chunks = [])
    ∧ (∀ r db2, ingest_document proc embedBatch commitOk filename file_path
        file_type db = (Except.ok r, db2) →
      ∃ full_content chunks embeddings,
        proc = Except.ok (full_content, chunks)
        ∧ embedBatch (chunks.map ChunkDict.text) = Except.ok embeddings
        ∧ commitOk = true
        ∧ r = (db.next_doc_id, chunks.length)
        ∧ db2.committed.documents = db.committed.documents ++
            [{ id := db.next_doc_id, filename := filename,
               file_path := file_path, file_type := file_type,
               content := full_content, extra_metadata := none,
               metadata_attr := some [("chunk_count", MVal.int chunks.length)] }]
        ∧ db2.committed.document_chunks = db.committed.document_chunks ++
            mkChunkRows db.next_doc_id db.next_chunk_id chunks embeddings
        ∧ db2.tx_documents = [] ∧ db2.tx_chunks = []) := by
  obtain ⟨hd, hc⟩ := hfresh
  cases hp : proc with
  | error e0 =>
    refine ⟨fun e db2 heq => ?_, fun r db2 heq => ?_⟩
    · simp only [ingest_document, hp] at heq
      rw [Prod.mk.injEq] at heq
      obtain ⟨h1, h2⟩ := heq
      subst h2
      exact ⟨rfl, rfl, rfl⟩
    · simp only [ingest_document, hp] at heq
      rw [Prod.mk.injEq] at heq
      simp at heq
  | ok pair =>
    obtain ⟨full_content, chunks⟩ := pair
    cases he : embedBatch (chunks.map ChunkDict.text) with
    | error e1 =>
      refine ⟨fun e db2 heq => ?_, fun r db2 heq => ?_⟩
      · simp only [ingest_document, hp, he] at heq
        rw [Prod.mk.injEq] at heq
        obtain ⟨h1, h2⟩ := heq
        subst h2
        exact ⟨rfl, rfl, rfl⟩
      · simp only [ingest_document, hp, he] at heq
        rw [Prod.mk.injEq] at heq
        simp at heq
    | ok embeddings =>
      cases commitOk with
      | false =>
        refine ⟨fun e db2 heq => ?_, fun r db2 heq => ?_⟩
        · simp only [ingest_document, hp, he, Bool.false_eq_true, if_false] at heq
          rw [Prod.mk.injEq] at heq
          obtain ⟨h1, h2⟩ := heq
          subst h2
          exact ⟨rfl, rfl, rfl⟩
        · simp only [ingest_document, hp, he, Bool.false_eq_true, if_false] at heq
          rw [Prod.mk.injEq] at heq
          simp at heq
      | true =>
        refine ⟨fun e db2 heq => ?_, fun r db2 heq => ?_⟩
        · simp only [ingest_document, hp, he, if_true] at heq
          rw [Prod.mk.injEq] at heq
          simp at heq
        · simp only [ingest_document, hp, he, if_true] at heq
          rw [Prod.mk.injEq] at heq
          obtain ⟨h1, h2⟩ := heq
          subst h2
          refine ⟨full_content, chunks, embeddings, rfl, he, rfl, ?_, ?_, ?_, rfl, rfl⟩
          · exact (Except.ok.injEq _ _).mp h1.symm
          · simp [DbState.commitTx, hd]
          · simp [DbState.commitTx, hc]

/-- Witness for C2: a concrete two-chunk ingestion whose embedding call fails
leaves the committed store empty (the spec's rollback scenario). -/
theorem ingest_document_atomic_witness :
    ((ingest_document procW embedFailW true "t.txt" "data/raw/t.txt" "txt"
        dbFresh).2).committed = emptyStore :=
  ((ingest_document_atomic procW embedFailW true "t.txt" "data/raw/t.txt" "txt"
      dbFresh ⟨rfl, rfl⟩).1 (PyErr.embeddingError "model down") _ rfl).1

/-- C6 is violated by the code: on a successful concrete ingestion of two
chunks, `chunk_documents` does compute metadata dictionaries carrying
`chunk_index` (0, 1) and `chunk_size` (7, 7 — the chunk text lengths), but
the persisted chunk rows carry NULL in their `extra_metadata` column: the
`metadata=` constructor keyword lands in an unmapped instance attribute
(`metadata` is the declarative registry attribute, not the mapped column), so
no stored metadata JSON contains the keys. -/
theorem ingest_chunk_metadata_not_persisted :
    ((chunk_documents splitW [docW]).map fun c =>
        (dictGet c.metadata "chunk_index", dictGet c.metadata "chunk_size"))
      = [(some (MVal.int 0), some (MVal.int 7)),
         (some (MVal.int 1), some (MVal.int 7))]
    ∧ ingestW.1 = Except.ok (1, 2)
    ∧ ingestW.2.committed.document_chunks.map ChunkRow.extra_metadata
      = [none, none]
    ∧ ingestW.2.committed.document_chunks.map ChunkRow.metadata_attr
      = [some [("source", MVal.str "data/raw/t.txt"),
               ("chunk_index", MVal.int 0), ("chunk_size", MVal.int 7)],
         some [("source", MVal.str "data/raw/t.txt"),
               ("chunk_index", MVal.int 1), ("chunk_size", MVal.int 7)]] := by
  refine ⟨by decide, rfl, by decide, by decide⟩

/-- C9 is violated in its error-kind part: deleting an absent document id
builds `HTTPException(status_code=status.HTTP_400_NOT_FOUND, ...)`, but that
constant does not exist in `starlette.status`, so an `AttributeError` is
raised and the generic handler converts it into an HTTP 500 server error —
not a not-found client error.  The store and the filesystem are left
unchanged (that part of the claim holds). -/
theorem delete_document_not_found_returns_500 :
    delete_document 7 true { documents := [], document_chunks := [] }
        ["data/raw/t.txt"]
      = (DeleteResult.httpError 500 "Error deleting document: AttributeError",
         { documents := [], document_chunks := [] }, ["data/raw/t.txt"])
    ∧ statusAttr "HTTP_400_NOT_FOUND" = none
    ∧ statusAttr "HTTP_404_NOT_FOUND" = some 404 := by
  refine ⟨rfl, rfl, rfl⟩

/-- C10: for a delete of an existing document, the backing file is unlinked
before `db.commit()`; when the commit fails, the generic handler rolls the
row deletions back — the store is exactly as before — while the file stays
deleted from the filesystem. -/
theorem delete_commit_failure_file_gone_rows_kept (store : Store)
    (fs : List String) (document_id : ℤ) (doc : DocRow)
    (hfind : store.documents.find? (fun d => d.id == document_id) = some doc) :
    delete_document document_id false store fs
      = (DeleteResult.httpError 500 "Error deleting document: commit failed",
         store, fs.filter fun p => p != doc.file_path)
    ∧ doc.file_path ∉ (delete_document document_id false store fs).2.2 := by
  have h1 : delete_document document_id false store fs
      = (DeleteResult.httpError 500 "Error deleting document: commit failed",
         store, fs.filter fun p => p != doc.file_path) := by
    simp [delete_document, hfind]
  refine ⟨h1, ?_⟩
  rw [h1]
  simp [List.mem_filter]

/-- Witness for C10: deleting document 1 of the example store with a failing
commit keeps both rows and removes exactly the backing file from disk. -/
theorem delete_commit_failure_file_gone_rows_kept_witness :
    delete_document 1 false exStore ["data/raw/t.txt", "data/raw/u.txt"]
      = (DeleteResult.httpError 500 "Error deleting document: commit failed",
         exStore, ["data/raw/u.txt"]) :=
  ((delete_commit_failure_file_gone_rows_kept exStore
      ["data/raw/t.txt", "data/raw/u.txt"] 1 exDoc (by decide)).1).trans
    (by decide)

/-- C4 is violated by the code: a query whose search step matches nothing can
never produce the canned answer, because the search SQL raises the
undefined-table error (`FROM document_chunk`) before `generate_answer` is
reached; `retrieval_relevant_chunks` re-raises it and the query operation
propagates it (the router surfaces HTTP 500).  Concretely, against the empty
store with a functioning embedding oracle the error is the only query
outcome, and the canned no-relevant-information response is not one. -/
theorem query_empty_store_errors :
    (∀ resp, QueryOutcome embedOneW dist0 llmFailW emptyStore "hi" none none
        resp → resp = Except.error undefinedTableError)
    ∧ QueryOutcome embedOneW dist0 llmFailW emptyStore "hi" none none
        (Except.error undefinedTableError)
    ∧ ¬ QueryOutcome embedOneW dist0 llmFailW emptyStore "hi" none none
        (Except.ok (QueryResponse.mk "hi" cannedAnswer [] 0)) := by
  have hcond : ¬ (searchSqlFromTable ∈ schemaTables
      ∧ searchSqlJoinTable ∈ schemaTables) := by decide
  refine ⟨?_, ?_, ?_⟩
  · rintro resp ⟨r, hr, hrest⟩
    have hr3 : SearchExecOutcome dist0 emptyStore [1] (resolveTopK none).toNat
        (resolveSimilarityThreshold none) r := hr
    unfold SearchExecOutcome at hr3
    rw [if_neg hcond] at hr3
    subst hr3
    exact hrest
  · refine ⟨Except.error undefinedTableError, ?_, rfl⟩
    show SearchExecOutcome dist0 emptyStore [1] (resolveTopK none).toNat
      (resolveSimilarityThreshold none) (Except.error undefinedTableError)
    unfold SearchExecOutcome
    rw [if_neg hcond]
  · rintro ⟨r, hr, hrest⟩
    have hr3 : SearchExecOutcome dist0 emptyStore [1] (resolveTopK none).toNat
        (resolveSimilarityThreshold none) r := hr
    unfold SearchExecOutcome at hr3
    rw [if_neg hcond] at hr3
    subst hr3
    exact Except.noConfusion hrest

/-- Witness for the universally quantified part of C4's theorem. -/
theorem query_empty_store_errors_witness :
    (Except.error undefinedTableError : Except PyErr QueryResponse)
      = Except.error undefinedTableError :=
  query_empty_store_errors.1 (Except.error undefinedTableError)
    query_empty_store_errors.2.1
